import Mathlib

/-!
Verification of the combined retry strategy
(`src/strands/event_loop/_tool_and_model_retry.py`).

The Python class `ToolAndModelRetryStrategy` is shallowly embedded.
Configuration (immutable after construction) and mutable state are split
into two structures; each event handler is embedded as a function that
returns the ordered list of side effects (`Action`) the Python method
performs, in source order.  Folding the action list over the state with
`applyAction` yields the post-state and the event's `retry` flag, so both
state-transformer facts and ordering (which effect happens before which,
in particular relative to the `asyncio.sleep` suspension point) are
provable about the same embedding.

Python `float` delays are modelled as `ℚ`: the only operations performed
are multiplication by a power of two and `min`, which are exact in binary
floating point (absent overflow), and `int(...)` truncation is modelled by
`pyInt`.  Python dicts keyed by strings are modelled as association lists
with `alookup` / `aset` / `aerase`.
-/

namespace RetryStrategy

/-- A Python exception, as far as this module can distinguish them:
`ModelThrottledException` (matched by `isinstance` in the model handler),
`RuntimeError` (synthesized for error-status tool results), anything else. -/
inductive PyException where
  | modelThrottled (msg : String)
  | runtimeError (msg : String)
  | other (msg : String)
deriving DecidableEq, Repr

/-- One entry of a tool result's `content` list: a dict that may or may not
have a `"text"` key (a non-dict entry behaves like a dict without the key). -/
structure ContentBlock where
  text : Option String
deriving DecidableEq, Repr

/-- The `tool_use` dict of an `AfterToolCallEvent`: `toolUseId` and `name`
keys, each possibly absent. -/
structure ToolUse where
  toolUseId : Option String
  name : Option String
deriving DecidableEq, Repr

/-- The `result` dict of an `AfterToolCallEvent`: optional `status` and the
`content` list. -/
structure ToolResult where
  status : Option String
  content : List ContentBlock
deriving DecidableEq, Repr

/-- `AfterToolCallEvent`: tool-use descriptor, result payload, optional
exception, and the mutable `retry` flag (its value on entry to the handler). -/
structure AfterToolCallEvent where
  tool_use : ToolUse
  result : ToolResult
  exception : Option PyException
  retry : Bool
deriving DecidableEq, Repr

/-- `AfterModelCallEvent`: optional success payload (`stop_response`),
optional exception, and the mutable `retry` flag on entry.  Only the
presence of `stop_response` matters to the handler, so it is `Option Unit`. -/
structure AfterModelCallEvent where
  stop_response : Option Unit
  exception : Option PyException
  retry : Bool
deriving DecidableEq, Repr

/-- `AfterInvocationEvent`: the handler ignores its payload. -/
structure AfterInvocationEvent where
  result : Option Unit
deriving DecidableEq, Repr

/-- The `EventLoopThrottleEvent` kept for backwards-compatible streaming;
it carries an integer delay. -/
structure EventLoopThrottleEvent where
  delay : Int
deriving DecidableEq, Repr

/-- A per-tool override dict from `tool_configs`: any of the three keys
`max_attempts`, `initial_delay`, `max_delay` may be present. -/
structure ToolConfigOverride where
  max_attempts : Option Int
  initial_delay : Option ℚ
  max_delay : Option ℚ

/-- The override dict with no keys, i.e. Python `{}`. -/
def emptyOverride : ToolConfigOverride :=
  { max_attempts := none, initial_delay := none, max_delay := none }

/-- Lookup in a string-keyed association list (Python `dict.get(k)`). -/
def alookup {α : Type} : List (String × α) → String → Option α
  | [], _ => none
  | (k0, v) :: rest, k => if k0 = k then some v else alookup rest k

/-- Store under a key, replacing an existing entry (Python `d[k] = v`). -/
def aset {α : Type} : List (String × α) → String → α → List (String × α)
  | [], k, v => [(k, v)]
  | (k0, v0) :: rest, k, v =>
      if k0 = k then (k, v) :: rest else (k0, v0) :: aset rest k v

/-- Remove a key's entries (Python `del d[k]`). -/
def aerase {α : Type} : List (String × α) → String → List (String × α)
  | [], _ => []
  | (k0, v0) :: rest, k =>
      if k0 = k then aerase rest k else (k0, v0) :: aerase rest k

/-- Python `d.get(k, dflt)`. -/
def mapGetD {α : Type} (m : List (String × α)) (k : String) (dflt : α) : α :=
  (alookup m k).getD dflt

/-- Python `int(q)` on a rational: truncation toward zero. -/
def pyInt (q : ℚ) : Int := Int.tdiv q.num (q.den : Int)

/-- The constructor arguments that the strategy stores unchanged: they are
immutable for the instance's lifetime.  `tool_enabled_tools` and
`tool_disabled_tools` hold the constructor's normalisation
(`set(x) if x else None`): `none` when the argument was `None` OR the empty
list.  Sets of names are kept as lists; only membership is ever used. -/
structure StrategyConfig where
  model_max_attempts : Int
  model_initial_delay : ℚ
  model_max_delay : ℚ
  tool_max_attempts : Int
  tool_initial_delay : ℚ
  tool_max_delay : ℚ
  tool_should_retry : Option (PyException → Bool)
  tool_configs : List (String × ToolConfigOverride)
  tool_enabled_tools : Option (List String)
  tool_disabled_tools : Option (List String)

/-- The strategy's mutable state: `_model_current_attempt`,
`_backwards_compatible_event_to_yield`, `_tool_attempts`. -/
structure StrategyState where
  model_current_attempt : Nat
  backwards_compatible_event_to_yield : Option EventLoopThrottleEvent
  tool_attempts : List (String × Nat)

/-- The state a freshly constructed strategy starts in. -/
def initialState : StrategyState :=
  { model_current_attempt := 0
    backwards_compatible_event_to_yield := none
    tool_attempts := [] }

/-- `ToolAndModelRetryStrategy.__init__`, arguments in signature order.
Raising `ValueError` is modelled as `Except.error`; on success the stored
configuration and the initial mutable state are returned.  Defaults of the
Python signature: `6, 4.0, 240.0, 0, 1.0, 30.0, None, None, None, None`
(see `initDefaults`). -/
def init (model_max_attempts : Int) (model_initial_delay : ℚ)
    (model_max_delay : ℚ) (tool_max_attempts : Int) (tool_initial_delay : ℚ)
    (tool_max_delay : ℚ) (tool_should_retry : Option (PyException → Bool))
    (tool_configs : Option (List (String × ToolConfigOverride)))
    (tool_enabled_tools : Option (List String))
    (tool_disabled_tools : Option (List String)) :
    Except String (StrategyConfig × StrategyState) :=
  if tool_enabled_tools.isSome && tool_disabled_tools.isSome then
    Except.error "Cannot specify both tool_enabled_tools and tool_disabled_tools"
  else
    Except.ok
      ({ model_max_attempts := model_max_attempts
         model_initial_delay := model_initial_delay
         model_max_delay := model_max_delay
         tool_max_attempts := tool_max_attempts
         tool_initial_delay := tool_initial_delay
         tool_max_delay := tool_max_delay
         tool_should_retry := tool_should_retry
         tool_configs := tool_configs.getD []
         tool_enabled_tools :=
           match tool_enabled_tools with
           | some l => if l.isEmpty then none else some l
           | none => none
         tool_disabled_tools :=
           match tool_disabled_tools with
           | some l => if l.isEmpty then none else some l
           | none => none },
       initialState)

/-- `ToolAndModelRetryStrategy()` with every argument left at its default. -/
def initDefaults : Except String (StrategyConfig × StrategyState) :=
  init 6 4 240 0 1 30 none none none none

/-- One side effect of a handler, in the order the Python method performs
them.  `sleep` records the `asyncio.sleep` suspension point; `setRetry`
records `event.retry = True`; the rest are writes to the strategy's own
mutable fields. -/
inductive Action where
  | setModelAttempt (n : Nat)
  | clearThrottle
  | setThrottle (delay : Int)
  | sleep (delay : ℚ)
  | setRetry
  | setToolAttempt (id : String) (n : Nat)
  | delToolAttempt (id : String)
deriving DecidableEq, Repr

/-- Apply one action to (state, event-retry-flag). -/
def applyAction (sr : StrategyState × Bool) (a : Action) : StrategyState × Bool :=
  match a with
  | Action.setModelAttempt n => ({ sr.1 with model_current_attempt := n }, sr.2)
  | Action.clearThrottle =>
      ({ sr.1 with backwards_compatible_event_to_yield := none }, sr.2)
  | Action.setThrottle d =>
      ({ sr.1 with backwards_compatible_event_to_yield := some ⟨d⟩ }, sr.2)
  | Action.sleep _ => sr
  | Action.setRetry => (sr.1, true)
  | Action.setToolAttempt id n =>
      ({ sr.1 with tool_attempts := aset sr.1.tool_attempts id n }, sr.2)
  | Action.delToolAttempt id =>
      ({ sr.1 with tool_attempts := aerase sr.1.tool_attempts id }, sr.2)

/-- Run a trace of actions from a state and an initial retry flag. -/
def runTrace (s : StrategyState) (r : Bool) (tr : List Action) :
    StrategyState × Bool :=
  tr.foldl applyAction (s, r)

/-- Python `min(a, b)` on two rationals: `a` when `a ≤ b`, else `b`. -/
def pymin (a b : ℚ) : ℚ := if a ≤ b then a else b

/-- `_calculate_model_delay`: `min(initial_delay * 2 ** attempt, max_delay)`. -/
def calculateModelDelay (cfg : StrategyConfig) (attempt : Nat) : ℚ :=
  pymin (cfg.model_initial_delay * 2 ^ attempt) cfg.model_max_delay

/-- `_calculate_tool_delay`: `min(initial_delay * 2 ** attempt, max_delay)`. -/
def calculateToolDelay (attempt : Nat) (initial_delay max_delay : ℚ) : ℚ :=
  pymin (initial_delay * 2 ^ attempt) max_delay

/-- `isinstance(x, ModelThrottledException)` on an optional exception
(`isinstance(None, ...)` is false). -/
def isThrottledException : Option PyException → Bool
  | some (PyException.modelThrottled _) => true
  | _ => false

/-- `_handle_after_model_call`, as the ordered list of effects it performs. -/
def handleAfterModelCall (cfg : StrategyConfig) (s : StrategyState)
    (e : AfterModelCallEvent) : List Action :=
  if e.retry then []
  else if e.stop_response.isSome then
    [Action.setModelAttempt 0, Action.clearThrottle]
  else if !isThrottledException e.exception then
    [Action.setModelAttempt 0, Action.clearThrottle]
  else if (s.model_current_attempt : Int) ≥ cfg.model_max_attempts then []
  else
    [Action.sleep (calculateModelDelay cfg s.model_current_attempt),
     Action.setThrottle (pyInt (calculateModelDelay cfg s.model_current_attempt)),
     Action.setModelAttempt (s.model_current_attempt + 1),
     Action.setRetry]

/-- Post-state and post-`retry` of `_handle_after_model_call`. -/
def runAfterModelCall (cfg : StrategyConfig) (s : StrategyState)
    (e : AfterModelCallEvent) : StrategyState × Bool :=
  runTrace s e.retry (handleAfterModelCall cfg s e)

/-- `_get_tool_config`: `(max_attempts, initial_delay, max_delay)` with the
per-tool override taking precedence field by field. -/
def getToolConfig (cfg : StrategyConfig) (tool_name : String) : Int × ℚ × ℚ :=
  ((alookup cfg.tool_configs tool_name).getD emptyOverride |>.max_attempts.getD
      cfg.tool_max_attempts,
   (alookup cfg.tool_configs tool_name).getD emptyOverride |>.initial_delay.getD
      cfg.tool_initial_delay,
   (alookup cfg.tool_configs tool_name).getD emptyOverride |>.max_delay.getD
      cfg.tool_max_delay)

/-- `_is_tool_retry_enabled`. -/
def isToolRetryEnabled (cfg : StrategyConfig) (tool_name : String) : Bool :=
  if cfg.tool_max_attempts ≤ 0 ∧
      (((alookup cfg.tool_configs tool_name).getD
          emptyOverride).max_attempts.getD 0) ≤ 0 then
    false
  else
    match cfg.tool_enabled_tools with
    | some l => tool_name ∈ l
    | none =>
      match cfg.tool_disabled_tools with
      | some l => !(tool_name ∈ l : Bool)
      | none => true

/-- `_is_tool_error_result`: exception present, or result status `"error"`. -/
def isToolErrorResult (e : AfterToolCallEvent) : Bool :=
  if e.exception.isSome then true
  else if e.result.status = some "error" then true
  else false

/-- The loop in `_get_tool_error_for_predicate`: the `"text"` of the first
content item that has one, else `""` (the loop variable's initial value). -/
def firstText : List ContentBlock → String
  | [] => ""
  | b :: rest =>
    match b.text with
    | some t => t
    | none => firstText rest

/-- `_get_tool_error_for_predicate`: the event's exception if present, else
a `RuntimeError` synthesized from the first textual content item of an
error-status result (Python `error_text or "Tool returned error status"`
falls back when the found text is empty), else `None`. -/
def getToolErrorForPredicate (e : AfterToolCallEvent) : Option PyException :=
  match e.exception with
  | some exc => some exc
  | none =>
    if e.result.status = some "error" then
      some (PyException.runtimeError
        (if firstText e.result.content = "" then "Tool returned error status"
         else firstText e.result.content))
    else none

/-- The guard `self._tool_should_retry is not None and error is not None and
not self._tool_should_retry(error)`. -/
def predicateRejects (cfg : StrategyConfig) (error : Option PyException) : Bool :=
  match cfg.tool_should_retry, error with
  | some p, some err => !p err
  | _, _ => false

/-- `str(event.tool_use.get("toolUseId", ""))`. -/
def toolUseKey (e : AfterToolCallEvent) : String := e.tool_use.toolUseId.getD ""

/-- `event.tool_use.get("name", "")`. -/
def toolName (e : AfterToolCallEvent) : String := e.tool_use.name.getD ""

/-- `_handle_after_tool_call`, as the ordered list of effects it performs. -/
def handleAfterToolCall (cfg : StrategyConfig) (s : StrategyState)
    (e : AfterToolCallEvent) : List Action :=
  if e.retry then []
  else if !isToolRetryEnabled cfg (toolName e) then []
  else if !isToolErrorResult e then
    if (alookup s.tool_attempts (toolUseKey e)).isSome then
      [Action.delToolAttempt (toolUseKey e)]
    else []
  else if predicateRejects cfg (getToolErrorForPredicate e) then []
  else
    if ((mapGetD s.tool_attempts (toolUseKey e) 0 + 1 : Nat) : Int) ≥
        (getToolConfig cfg (toolName e)).1 then
      [Action.setToolAttempt (toolUseKey e)
        (mapGetD s.tool_attempts (toolUseKey e) 0 + 1)]
    else
      [Action.setToolAttempt (toolUseKey e)
        (mapGetD s.tool_attempts (toolUseKey e) 0 + 1),
       Action.sleep (calculateToolDelay
         (mapGetD s.tool_attempts (toolUseKey e) 0 + 1 - 1)
         (getToolConfig cfg (toolName e)).2.1 (getToolConfig cfg (toolName e)).2.2),
       Action.setRetry]

/-- Post-state and post-`retry` of `_handle_after_tool_call`. -/
def runAfterToolCall (cfg : StrategyConfig) (s : StrategyState)
    (e : AfterToolCallEvent) : StrategyState × Bool :=
  runTrace s e.retry (handleAfterToolCall cfg s e)

/-- `_reset_state`. -/
def resetState (_s : StrategyState) : StrategyState :=
  { model_current_attempt := 0
    backwards_compatible_event_to_yield := none
    tool_attempts := [] }

/-- `_handle_after_invocation`: reset, ignoring the event payload. -/
def handleAfterInvocation (s : StrategyState) (_e : AfterInvocationEvent) :
    StrategyState :=
  resetState s

/-! ### Association-list lemmas -/

theorem alookup_aset_self {α : Type} (m : List (String × α)) (k : String) (v : α) :
    alookup (aset m k v) k = some v := by
  induction m with
  | nil => simp [aset, alookup]
  | cons hd tl ih =>
    obtain ⟨k0, v0⟩ := hd
    by_cases h : k0 = k
    · simp [aset, h, alookup]
    · simp [aset, h, alookup, ih]

theorem alookup_aset_ne {α : Type} (m : List (String × α)) (k k' : String) (v : α)
    (h : k ≠ k') : alookup (aset m k v) k' = alookup m k' := by
  induction m with
  | nil => simp [aset, alookup, h]
  | cons hd tl ih =>
    obtain ⟨k0, v0⟩ := hd
    by_cases h0 : k0 = k
    · subst h0
      simp [aset, alookup, h]
    · simp only [aset, h0, if_false, alookup]
      by_cases h1 : k0 = k'
      · simp [h1]
      · simp [h1, ih]

theorem alookup_aerase_self {α : Type} (m : List (String × α)) (k : String) :
    alookup (aerase m k) k = none := by
  induction m with
  | nil => simp [aerase, alookup]
  | cons hd tl ih =>
    obtain ⟨k0, v0⟩ := hd
    by_cases h : k0 = k
    · simp [aerase, h, ih]
    · simp [aerase, h, alookup, ih]

theorem alookup_aerase_ne {α : Type} (m : List (String × α)) (k k' : String)
    (h : k ≠ k') : alookup (aerase m k) k' = alookup m k' := by
  induction m with
  | nil => simp [aerase]
  | cons hd tl ih =>
    obtain ⟨k0, v0⟩ := hd
    by_cases h0 : k0 = k
    · subst h0
      simp [aerase, alookup, h, ih]
    · simp only [aerase, h0, if_false, alookup]
      by_cases h1 : k0 = k'
      · simp [h1]
      · simp [h1, ih]

theorem aerase_of_alookup_none {α : Type} (m : List (String × α)) (k : String)
    (h : alookup m k = none) : aerase m k = m := by
  induction m with
  | nil => simp [aerase]
  | cons hd tl ih =>
    obtain ⟨k0, v0⟩ := hd
    by_cases h0 : k0 = k
    · simp [alookup, h0] at h
    · simp only [alookup, h0, if_false] at h
      simp [aerase, h0, ih h]

/-! ### Trace shapes and effect ordering -/

/-- Is the action the `asyncio.sleep` suspension point? -/
def isSleepA : Action → Bool
  | Action.sleep _ => true
  | _ => false

/-- Is the action `event.retry = True`? -/
def isSetRetryA : Action → Bool
  | Action.setRetry => true
  | _ => false

/-- Is the action a write to `_model_current_attempt`? -/
def isModelCounterSetA : Action → Bool
  | Action.setModelAttempt _ => true
  | _ => false

/-- Is the action a write to the `_tool_attempts` counter of some id? -/
def isToolCounterSetA : Action → Bool
  | Action.setToolAttempt _ _ => true
  | _ => false

/-- Every `p`-action in the trace occurs strictly before every `q`-action. -/
def precedes (p q : Action → Bool) (tr : List Action) : Prop :=
  ∀ i j : Fin tr.length, p (tr.get i) = true → q (tr.get j) = true → i < j

/-- The tool handler's trace takes one of four shapes. -/
theorem toolTraceShapes (cfg : StrategyConfig) (s : StrategyState)
    (e : AfterToolCallEvent) :
    handleAfterToolCall cfg s e = [] ∨
    handleAfterToolCall cfg s e = [Action.delToolAttempt (toolUseKey e)] ∨
    (∃ n, handleAfterToolCall cfg s e = [Action.setToolAttempt (toolUseKey e) n]) ∨
    (∃ n d, handleAfterToolCall cfg s e =
      [Action.setToolAttempt (toolUseKey e) n, Action.sleep d, Action.setRetry]) := by
  unfold handleAfterToolCall
  split_ifs <;> simp

/-- The model handler's trace takes one of three shapes. -/
theorem modelTraceShapes (cfg : StrategyConfig) (s : StrategyState)
    (e : AfterModelCallEvent) :
    handleAfterModelCall cfg s e = [] ∨
    handleAfterModelCall cfg s e = [Action.setModelAttempt 0, Action.clearThrottle] ∨
    handleAfterModelCall cfg s e =
      [Action.sleep (calculateModelDelay cfg s.model_current_attempt),
       Action.setThrottle (pyInt (calculateModelDelay cfg s.model_current_attempt)),
       Action.setModelAttempt (s.model_current_attempt + 1),
       Action.setRetry] := by
  unfold handleAfterModelCall
  split_ifs <;> simp

/-- Frame property: a tool-call event only ever touches its own key's
attempt count. -/
theorem runAfterToolCall_frame (cfg : StrategyConfig) (s : StrategyState)
    (e : AfterToolCallEvent) (k : String) (hk : k ≠ toolUseKey e) :
    alookup (runAfterToolCall cfg s e).1.tool_attempts k =
      alookup s.tool_attempts k := by
  unfold runAfterToolCall runTrace
  rcases toolTraceShapes cfg s e with h | h | ⟨n, h⟩ | ⟨n, d, h⟩ <;>
    rw [h] <;>
    simp [applyAction, alookup_aset_ne _ _ _ _ (Ne.symm hk),
      alookup_aerase_ne _ _ _ (Ne.symm hk)]

/-- On a failure event that passes the enablement and predicate gates, the
tool handler's trace is: record the incremented count, then (only when the
new count is still below the effective max) sleep the exponential-backoff
delay and set the retry flag. -/
theorem toolFailureTrace (cfg : StrategyConfig) (s : StrategyState)
    (e : AfterToolCallEvent)
    (h1 : e.retry = false)
    (h2 : isToolRetryEnabled cfg (toolName e) = true)
    (h3 : isToolErrorResult e = true)
    (h4 : predicateRejects cfg (getToolErrorForPredicate e) = false) :
    handleAfterToolCall cfg s e =
      if ((mapGetD s.tool_attempts (toolUseKey e) 0 + 1 : Nat) : Int) ≥
          (getToolConfig cfg (toolName e)).1 then
        [Action.setToolAttempt (toolUseKey e)
          (mapGetD s.tool_attempts (toolUseKey e) 0 + 1)]
      else
        [Action.setToolAttempt (toolUseKey e)
          (mapGetD s.tool_attempts (toolUseKey e) 0 + 1),
         Action.sleep (calculateToolDelay
           (mapGetD s.tool_attempts (toolUseKey e) 0 + 1 - 1)
           (getToolConfig cfg (toolName e)).2.1
           (getToolConfig cfg (toolName e)).2.2),
         Action.setRetry] := by
  unfold handleAfterToolCall
  rw [h1, h2, h3, h4]
  simp

/-- On a gated failure event the recorded count becomes the old count plus
one. -/
theorem toolFailureLookup (cfg : StrategyConfig) (s : StrategyState)
    (e : AfterToolCallEvent)
    (h1 : e.retry = false)
    (h2 : isToolRetryEnabled cfg (toolName e) = true)
    (h3 : isToolErrorResult e = true)
    (h4 : predicateRejects cfg (getToolErrorForPredicate e) = false) :
    alookup (runAfterToolCall cfg s e).1.tool_attempts (toolUseKey e) =
      some (mapGetD s.tool_attempts (toolUseKey e) 0 + 1) := by
  unfold runAfterToolCall runTrace
  rw [toolFailureTrace cfg s e h1 h2 h3 h4]
  by_cases hm : ((mapGetD s.tool_attempts (toolUseKey e) 0 + 1 : Nat) : Int) ≥
      (getToolConfig cfg (toolName e)).1
  · rw [if_pos hm]
    simp [applyAction, alookup_aset_self]
  · rw [if_neg hm]
    simp [applyAction, alookup_aset_self]

/-- On a gated failure event the retry flag ends up true exactly when the
new count is still below the effective max attempts. -/
theorem toolFailureRetry (cfg : StrategyConfig) (s : StrategyState)
    (e : AfterToolCallEvent)
    (h1 : e.retry = false)
    (h2 : isToolRetryEnabled cfg (toolName e) = true)
    (h3 : isToolErrorResult e = true)
    (h4 : predicateRejects cfg (getToolErrorForPredicate e) = false) :
    (runAfterToolCall cfg s e).2 =
      decide (((mapGetD s.tool_attempts (toolUseKey e) 0 + 1 : Nat) : Int) <
        (getToolConfig cfg (toolName e)).1) := by
  unfold runAfterToolCall runTrace
  rw [toolFailureTrace cfg s e h1 h2 h3 h4, h1]
  by_cases hm : ((mapGetD s.tool_attempts (toolUseKey e) 0 + 1 : Nat) : Int) ≥
      (getToolConfig cfg (toolName e)).1
  · rw [if_pos hm]
    simp [applyAction]
    omega
  · rw [if_neg hm]
    simp [applyAction]
    omega

/-! ### Concrete fixtures used by witnesses and counterexamples -/

/-- The configuration a default-constructed strategy stores. -/
def cfgDefaults : StrategyConfig :=
  { model_max_attempts := 6
    model_initial_delay := 4
    model_max_delay := 240
    tool_max_attempts := 0
    tool_initial_delay := 1
    tool_max_delay := 30
    tool_should_retry := none
    tool_configs := []
    tool_enabled_tools := none
    tool_disabled_tools := none }

/-- Defaults with tool retries enabled: `tool_max_attempts=2`. -/
def cfgToolTwo : StrategyConfig := { cfgDefaults with tool_max_attempts := 2 }

/-- `cfgToolTwo` with a `should_retry` predicate that always refuses. -/
def cfgPredFalse : StrategyConfig :=
  { cfgToolTwo with tool_should_retry := some (fun _ => false) }

/-- A model-call event carrying a `ModelThrottledException`, `retry` unset. -/
def evThrottled : AfterModelCallEvent :=
  { stop_response := none
    exception := some (PyException.modelThrottled "rate limited")
    retry := false }

/-- A failed tool call (error-status result) for id `"t1"`, tool `"my_tool"`. -/
def evToolErr1 : AfterToolCallEvent :=
  { tool_use := { toolUseId := some "t1", name := some "my_tool" }
    result := { status := some "error", content := [{ text := some "Error" }] }
    exception := none
    retry := false }

/-- A successful tool call for id `"t1"`, tool `"my_tool"`. -/
def evToolOk1 : AfterToolCallEvent :=
  { tool_use := { toolUseId := some "t1", name := some "my_tool" }
    result := { status := some "success", content := [] }
    exception := none
    retry := false }

/-- A failed tool call for tool `"other_tool"`. -/
def evOtherTool : AfterToolCallEvent :=
  { tool_use := { toolUseId := some "test-id", name := some "other_tool" }
    result := { status := some "error", content := [{ text := some "Error" }] }
    exception := none
    retry := false }

/-- A failed tool call whose `tool_use` has no `toolUseId`, tool `"tool_a"`. -/
def evNoIdA : AfterToolCallEvent :=
  { tool_use := { toolUseId := none, name := some "tool_a" }
    result := { status := some "error", content := [] }
    exception := none
    retry := false }

/-- A failed tool call whose `tool_use` has no `toolUseId`, tool `"tool_b"`. -/
def evNoIdB : AfterToolCallEvent :=
  { tool_use := { toolUseId := none, name := some "tool_b" }
    result := { status := some "error", content := [] }
    exception := none
    retry := false }

/-- State in which id `"t1"` has already recorded 2 attempts. -/
def stExhausted : StrategyState :=
  { model_current_attempt := 0
    backwards_compatible_event_to_yield := none
    tool_attempts := [("t1", 2)] }

/-- A state with nontrivial model and tool retry state. -/
def stMixed : StrategyState :=
  { model_current_attempt := 3
    backwards_compatible_event_to_yield := some ⟨8⟩
    tool_attempts := [("t1", 1), ("t2", 2)] }

/-- The state after `evToolErr1` has been processed once from scratch by a
strategy configured as `cfgToolTwo`. -/
def stAfterFirstFailure : StrategyState :=
  (runAfterToolCall cfgToolTwo initialState evToolErr1).1

/-! ### Claims -/

/-- Claim C1: for every after-tool-call event with `retry` unset, whose tool
has retries enabled, and which reports a failure approved by the predicate
(if any): the handler increments the identifier's attempt count to `n`, and
exactly when `n` is below the effective `max_attempts` it sleeps
`delay = min(initial_delay * 2 ^ (n - 1), max_delay)` and sets `retry`;
otherwise it records the count and leaves `retry` false. -/
theorem tool_failure_retry_with_backoff (cfg : StrategyConfig)
    (s : StrategyState) (e : AfterToolCallEvent)
    (h1 : e.retry = false)
    (h2 : isToolRetryEnabled cfg (toolName e) = true)
    (h3 : isToolErrorResult e = true)
    (h4 : predicateRejects cfg (getToolErrorForPredicate e) = false) :
    alookup (runAfterToolCall cfg s e).1.tool_attempts (toolUseKey e) =
      some (mapGetD s.tool_attempts (toolUseKey e) 0 + 1) ∧
    (runAfterToolCall cfg s e).2 =
      decide (((mapGetD s.tool_attempts (toolUseKey e) 0 + 1 : Nat) : Int) <
        (getToolConfig cfg (toolName e)).1) ∧
    handleAfterToolCall cfg s e =
      if ((mapGetD s.tool_attempts (toolUseKey e) 0 + 1 : Nat) : Int) ≥
          (getToolConfig cfg (toolName e)).1 then
        [Action.setToolAttempt (toolUseKey e)
          (mapGetD s.tool_attempts (toolUseKey e) 0 + 1)]
      else
        [Action.setToolAttempt (toolUseKey e)
          (mapGetD s.tool_attempts (toolUseKey e) 0 + 1),
         Action.sleep (pymin ((getToolConfig cfg (toolName e)).2.1 *
             2 ^ (mapGetD s.tool_attempts (toolUseKey e) 0 + 1 - 1))
           (getToolConfig cfg (toolName e)).2.2),
         Action.setRetry] := by
  refine ⟨toolFailureLookup cfg s e h1 h2 h3 h4,
    toolFailureRetry cfg s e h1 h2 h3 h4, ?_⟩
  rw [toolFailureTrace cfg s e h1 h2 h3 h4]
  rfl

/-- Witness for C1, matching the claim's concrete scenario: with
`max_attempts=2` and `initial_delay=1.0`, the first failure for `"t1"`
yields count 1, a 1.0-second backoff, and `retry=true`; the second failure
yields count 2 and `retry=false`. -/
theorem tool_failure_retry_with_backoff_witness :
    alookup (runAfterToolCall cfgToolTwo initialState evToolErr1).1.tool_attempts
      "t1" = some 1 ∧
    (runAfterToolCall cfgToolTwo initialState evToolErr1).2 = true ∧
    handleAfterToolCall cfgToolTwo initialState evToolErr1 =
      [Action.setToolAttempt "t1" 1, Action.sleep 1, Action.setRetry] ∧
    alookup (runAfterToolCall cfgToolTwo stAfterFirstFailure evToolErr1).1.tool_attempts
      "t1" = some 2 ∧
    (runAfterToolCall cfgToolTwo stAfterFirstFailure evToolErr1).2 = false := by
  have hA := tool_failure_retry_with_backoff cfgToolTwo initialState evToolErr1
    rfl (by decide) (by decide) (by decide)
  have hB := tool_failure_retry_with_backoff cfgToolTwo stAfterFirstFailure evToolErr1
    rfl (by decide) (by decide) (by decide)
  refine ⟨hA.1, ?_, ?_, hB.1, ?_⟩
  · rw [hA.2.1]; decide
  · have hd1 : pymin ((getToolConfig cfgToolTwo (toolName evToolErr1)).2.1 *
        2 ^ (mapGetD initialState.tool_attempts (toolUseKey evToolErr1) 0 + 1 - 1))
        (getToolConfig cfgToolTwo (toolName evToolErr1)).2.2 = 1 := by
      norm_num [pymin, getToolConfig, cfgToolTwo, cfgDefaults, alookup,
        emptyOverride, toolName, evToolErr1, mapGetD, initialState, toolUseKey]
    rw [hA.2.2, if_neg (by decide), hd1]
    decide
  · rw [hB.2.1]; decide

/-- Claim C2: for every after-model-call event with `retry` unset, no success
payload, and a model-throttled exception: if the counter has reached
`model_max_attempts` nothing changes and `retry` stays false; otherwise the
handler sleeps `delay = min(model_initial_delay * 2 ^ counter, model_max_delay)`
(0-indexed pre-increment counter), records a throttle notification carrying
the integer-truncated delay, increments the counter, and sets `retry`.
The defaults are 6 max attempts, 4.0s initial delay, 240.0s cap. -/
theorem model_throttle_retry_with_backoff (cfg : StrategyConfig)
    (s : StrategyState) (e : AfterModelCallEvent)
    (h1 : e.retry = false)
    (h2 : e.stop_response = none)
    (h3 : isThrottledException e.exception = true) :
    ((s.model_current_attempt : Int) ≥ cfg.model_max_attempts →
      runAfterModelCall cfg s e = (s, false)) ∧
    ((s.model_current_attempt : Int) < cfg.model_max_attempts →
      handleAfterModelCall cfg s e =
        [Action.sleep (pymin (cfg.model_initial_delay * 2 ^ s.model_current_attempt)
           cfg.model_max_delay),
         Action.setThrottle (pyInt (pymin
           (cfg.model_initial_delay * 2 ^ s.model_current_attempt) cfg.model_max_delay)),
         Action.setModelAttempt (s.model_current_attempt + 1),
         Action.setRetry] ∧
      (runAfterModelCall cfg s e).1.model_current_attempt =
        s.model_current_attempt + 1 ∧
      (runAfterModelCall cfg s e).1.backwards_compatible_event_to_yield =
        some ⟨pyInt (pymin (cfg.model_initial_delay * 2 ^ s.model_current_attempt)
          cfg.model_max_delay)⟩ ∧
      (runAfterModelCall cfg s e).2 = true) ∧
    Except.map
      (fun p => (p.1.model_max_attempts, p.1.model_initial_delay, p.1.model_max_delay))
      initDefaults = Except.ok (6, 4, 240) := by
  have htr : handleAfterModelCall cfg s e =
      if (s.model_current_attempt : Int) ≥ cfg.model_max_attempts then []
      else
        [Action.sleep (calculateModelDelay cfg s.model_current_attempt),
         Action.setThrottle (pyInt (calculateModelDelay cfg s.model_current_attempt)),
         Action.setModelAttempt (s.model_current_attempt + 1),
         Action.setRetry] := by
    unfold handleAfterModelCall
    rw [h1, h2, h3]
    simp
  refine ⟨?_, ?_, rfl⟩
  · intro hge
    unfold runAfterModelCall runTrace
    rw [htr, if_pos hge, h1]
    rfl
  · intro hlt
    have hneg : ¬ ((s.model_current_attempt : Int) ≥ cfg.model_max_attempts) :=
      not_le.mpr hlt
    unfold runAfterModelCall runTrace
    rw [htr, if_neg hneg, h1]
    refine ⟨rfl, ?_, ?_, ?_⟩ <;> rfl

/-- Witness for C2: with the default configuration (6 attempts, 4.0s initial
delay, 240.0s cap) a first throttled model call sleeps 4.0s, caches a
throttle notification with integer delay 4, moves the counter to 1 and sets
`retry`. -/
theorem model_throttle_retry_with_backoff_witness :
    handleAfterModelCall cfgDefaults initialState evThrottled =
      [Action.sleep 4, Action.setThrottle 4, Action.setModelAttempt 1,
       Action.setRetry] ∧
    (runAfterModelCall cfgDefaults initialState evThrottled).1.model_current_attempt
      = 1 ∧
    (runAfterModelCall cfgDefaults initialState evThrottled).2 = true := by
  have h := model_throttle_retry_with_backoff cfgDefaults initialState evThrottled
    rfl rfl (by decide)
  have h2 := h.2.1 (by decide)
  refine ⟨?_, h2.2.1, h2.2.2.2⟩
  have hd4 : pymin (cfgDefaults.model_initial_delay *
      2 ^ initialState.model_current_attempt) cfgDefaults.model_max_delay = 4 := by
    norm_num [pymin, cfgDefaults, initialState]
  rw [h2.1, hd4]
  decide

/-- Claim C3 (amended): in the tool path every attempt-counter write precedes
the backoff sleep and the retry flag is set only after the sleep; in the
model path the retry flag is likewise set only after the sleep, but the
counter increment also happens after the sleep, not before it. -/
theorem retry_effect_ordering (cfg : StrategyConfig) (s : StrategyState)
    (eT : AfterToolCallEvent) (eM : AfterModelCallEvent) :
    precedes isToolCounterSetA isSleepA (handleAfterToolCall cfg s eT) ∧
    precedes isSleepA isSetRetryA (handleAfterToolCall cfg s eT) ∧
    precedes isSleepA isSetRetryA (handleAfterModelCall cfg s eM) ∧
    precedes isSleepA isModelCounterSetA (handleAfterModelCall cfg s eM) := by
  refine ⟨?_, ?_, ?_, ?_⟩
  · unfold precedes
    rcases toolTraceShapes cfg s eT with h | h | ⟨n, h⟩ | ⟨n, d, h⟩ <;> rw [h] <;>
      intro i j hp hq <;> fin_cases i <;> fin_cases j <;>
      simp_all [isToolCounterSetA, isSleepA, List.get]
  · unfold precedes
    rcases toolTraceShapes cfg s eT with h | h | ⟨n, h⟩ | ⟨n, d, h⟩ <;> rw [h] <;>
      intro i j hp hq <;> fin_cases i <;> fin_cases j <;>
      simp_all [isSleepA, isSetRetryA, List.get]
  · unfold precedes
    rcases modelTraceShapes cfg s eM with h | h | h <;> rw [h] <;>
      intro i j hp hq <;> fin_cases i <;> fin_cases j <;>
      simp_all [isSleepA, isSetRetryA, List.get]
  · unfold precedes
    rcases modelTraceShapes cfg s eM with h | h | h <;> rw [h] <;>
      intro i j hp hq <;> fin_cases i <;> fin_cases j <;>
      simp_all [isSleepA, isModelCounterSetA, List.get]

/-- Claim C3 counterexample: on a first throttled model call with the default
configuration, the handler's trace is sleep, then the throttle notification,
then the counter increment, then the retry flag — so the attempt-counter
mutation does NOT precede the backoff sleep in the model path. -/
theorem model_counter_after_sleep_cex :
    handleAfterModelCall cfgDefaults initialState evThrottled =
      [Action.sleep 4, Action.setThrottle 4, Action.setModelAttempt 1,
       Action.setRetry] ∧
    ¬ precedes isModelCounterSetA isSleepA
        (handleAfterModelCall cfgDefaults initialState evThrottled) := by
  have htr : handleAfterModelCall cfgDefaults initialState evThrottled =
      [Action.sleep 4, Action.setThrottle 4, Action.setModelAttempt 1,
       Action.setRetry] := by
    have hd4 : calculateModelDelay cfgDefaults 0 = 4 := by
      norm_num [calculateModelDelay, pymin, cfgDefaults]
    have hproj : cfgDefaults.model_max_attempts = 6 := rfl
    have hpy : pyInt 4 = 4 := by decide
    unfold handleAfterModelCall
    norm_num [evThrottled, isThrottledException, initialState, hproj, hd4, hpy]
  refine ⟨htr, ?_⟩
  rw [htr]
  intro hcl
  have h2 := hcl ⟨2, by decide⟩ ⟨0, by decide⟩ (by decide) (by decide)
  exact absurd h2 (by decide)

/-- The enablement rule in the spec's words: retries are enabled when the
global max attempts is positive OR the per-tool override's max attempts is
positive, and, subject to that, the tool passes the allow-list (membership
required if one is stored) or the deny-list (non-membership required if one
is stored); with neither list stored every tool passes. -/
def specToolRetryEnabled (cfg : StrategyConfig) (tool_name : String) : Bool :=
  (decide (0 < cfg.tool_max_attempts) ||
    decide (0 < ((alookup cfg.tool_configs tool_name).getD
      emptyOverride).max_attempts.getD 0)) &&
  (match cfg.tool_enabled_tools with
   | some l => decide (tool_name ∈ l)
   | none =>
     match cfg.tool_disabled_tools with
     | some l => !decide (tool_name ∈ l)
     | none => true)

/-- Claim C4 (amended): the tool handler sets `retry` only when retries are
enabled for the tool name; enablement is exactly the spec's rule
(`specToolRetryEnabled`) over the strategy's stored lists; and a
constructor-supplied EMPTY allow-list is normalised to "no list stored"
(Python `set(x) if x else None`), so it does not block any tool — only a
nonempty allow-list filters. -/
theorem tool_enablement_rule :
    (∀ (cfg : StrategyConfig) (s : StrategyState) (e : AfterToolCallEvent),
      e.retry = false → (runAfterToolCall cfg s e).2 = true →
      isToolRetryEnabled cfg (toolName e) = true) ∧
    (∀ (cfg : StrategyConfig) (name : String),
      isToolRetryEnabled cfg name = specToolRetryEnabled cfg name) ∧
    (∀ (m1 : Int) (m2 m3 : ℚ) (t1 : Int) (t2 t3 : ℚ)
        (pr : Option (PyException → Bool))
        (tc : Option (List (String × ToolConfigOverride))),
      Except.map (fun p => p.1.tool_enabled_tools)
        (init m1 m2 m3 t1 t2 t3 pr tc (some []) none) = Except.ok none) := by
  refine ⟨?_, ?_, ?_⟩
  · intro cfg s e hr hrun
    by_contra hE
    rw [Bool.not_eq_true] at hE
    unfold runAfterToolCall handleAfterToolCall at hrun
    rw [hr, hE] at hrun
    simp [runTrace] at hrun
  · intro cfg name
    unfold isToolRetryEnabled specToolRetryEnabled
    by_cases hg : 0 < cfg.tool_max_attempts <;>
      by_cases ho : 0 < ((alookup cfg.tool_configs name).getD
        emptyOverride).max_attempts.getD 0
    · rw [if_neg (by omega)]
      simp [hg, ho]
    · rw [if_neg (by omega)]
      simp [hg, ho]
    · rw [if_neg (by omega)]
      simp [hg, ho]
    · rw [if_pos (by omega)]
      simp [hg, ho]
  · intro m1 m2 m3 t1 t2 t3 pr tc
    rfl

/-- Witness for C4: in the enabled concrete scenario of C1's witness the
retry flag does come out true, and the enablement rule evaluates to true
for that tool, matching `specToolRetryEnabled`. -/
theorem tool_enablement_rule_witness :
    isToolRetryEnabled cfgToolTwo (toolName evToolErr1) = true ∧
    isToolRetryEnabled cfgToolTwo "my_tool" =
      specToolRetryEnabled cfgToolTwo "my_tool" ∧
    Except.map (fun p => p.1.tool_enabled_tools)
      (init 6 4 240 2 1 30 none none (some []) none) = Except.ok none := by
  refine ⟨?_, tool_enablement_rule.2.1 cfgToolTwo "my_tool",
    tool_enablement_rule.2.2 6 4 240 2 1 30 none none⟩
  exact tool_enablement_rule.1 cfgToolTwo initialState evToolErr1 rfl (by decide)

/-- Claim C4 counterexample: constructing with the EMPTY allow-list
`tool_enabled_tools=[]` (and `tool_max_attempts=2`) stores no allow-list at
all, and a failure of `"other_tool"` — which is not a member of the supplied
(empty) allow-list — still gets `retry=true`, contradicting the claim that
any tool not in a configured allow-list, including the empty one, is never
retried. -/
theorem empty_allowlist_cex :
    init 6 4 240 2 1 30 none none (some []) none =
      Except.ok (cfgToolTwo, initialState) ∧
    cfgToolTwo.tool_enabled_tools = none ∧
    ("other_tool" ∈ ([] : List String)) = False ∧
    (runAfterToolCall cfgToolTwo initialState evOtherTool).2 = true := by
  refine ⟨rfl, rfl, by simp, by decide⟩

/-- Claim C5: exhaustion is terminal — once an identifier's recorded attempt
count has reached the effective max attempts for the event's tool, a further
failure event for that identifier (arriving with `retry` unset) leaves the
retry flag false. -/
theorem tool_exhaustion_terminal (cfg : StrategyConfig) (s : StrategyState)
    (e : AfterToolCallEvent)
    (h1 : e.retry = false)
    (h2 : isToolErrorResult e = true)
    (h3 : ((mapGetD s.tool_attempts (toolUseKey e) 0 : Nat) : Int) ≥
      (getToolConfig cfg (toolName e)).1) :
    (runAfterToolCall cfg s e).2 = false := by
  by_cases hE : isToolRetryEnabled cfg (toolName e) = true
  · by_cases hp : predicateRejects cfg (getToolErrorForPredicate e) = true
    · unfold runAfterToolCall handleAfterToolCall
      rw [h1, hE, h2, hp]
      simp [runTrace]
    · rw [Bool.not_eq_true] at hp
      rw [toolFailureRetry cfg s e h1 hE h2 hp]
      have hlt : ¬ (((mapGetD s.tool_attempts (toolUseKey e) 0 + 1 : Nat) : Int) <
          (getToolConfig cfg (toolName e)).1) := by
        push_cast
        omega
      exact decide_eq_false hlt
  · rw [Bool.not_eq_true] at hE
    unfold runAfterToolCall handleAfterToolCall
    rw [h1, hE]
    simp [runTrace]

/-- Witness for C5: with `max_attempts=2` and id `"t1"` already recorded at
2 attempts, a further failure event leaves `retry` false. -/
theorem tool_exhaustion_terminal_witness :
    ((mapGetD stExhausted.tool_attempts "t1" 0 : Nat) : Int) ≥
      (getToolConfig cfgToolTwo "my_tool").1 ∧
    (runAfterToolCall cfgToolTwo stExhausted evToolErr1).2 = false :=
  ⟨by decide,
   tool_exhaustion_terminal cfgToolTwo stExhausted evToolErr1 rfl (by decide)
     (by decide)⟩

/-- Claim C6: a successful tool call (no exception, status not `"error"`)
for an enabled tool removes exactly its own identifier's entry from the
attempt map: afterwards the identifier is absent, every other identifier's
count is unchanged, and in general any tool-call event leaves every other
identifier's count untouched (identifiers accumulate independently). -/
theorem tool_success_cleanup_frame (cfg : StrategyConfig) (s : StrategyState)
    (e : AfterToolCallEvent)
    (h1 : e.retry = false)
    (h2 : isToolRetryEnabled cfg (toolName e) = true)
    (h3 : isToolErrorResult e = false) :
    (runAfterToolCall cfg s e).1.tool_attempts =
      aerase s.tool_attempts (toolUseKey e) ∧
    alookup (runAfterToolCall cfg s e).1.tool_attempts (toolUseKey e) = none ∧
    (∀ k, k ≠ toolUseKey e →
      alookup (runAfterToolCall cfg s e).1.tool_attempts k =
        alookup s.tool_attempts k) ∧
    (∀ (s2 : StrategyState) (e2 : AfterToolCallEvent) (k : String),
      k ≠ toolUseKey e2 →
      alookup (runAfterToolCall cfg s2 e2).1.tool_attempts k =
        alookup s2.tool_attempts k) := by
  have hmain : (runAfterToolCall cfg s e).1.tool_attempts =
      aerase s.tool_attempts (toolUseKey e) := by
    unfold runAfterToolCall handleAfterToolCall runTrace
    rw [h1, h2, h3]
    by_cases hin : (alookup s.tool_attempts (toolUseKey e)).isSome
    · simp [hin, applyAction]
    · simp only [Bool.not_true, Bool.false_eq_true, if_false, hin, Bool.not_false,
        if_true, List.foldl_nil]
      exact (aerase_of_alookup_none _ _
        (Option.not_isSome_iff_eq_none.mp (by simp [hin]))).symm
  refine ⟨hmain, ?_, ?_, ?_⟩
  · rw [hmain]
    exact alookup_aerase_self _ _
  · intro k hk
    rw [hmain]
    exact alookup_aerase_ne _ _ _ (Ne.symm hk)
  · intro s2 e2 k hk
    exact runAfterToolCall_frame cfg s2 e2 k hk

/-- Witness for C6: from a state where `"t1"` has 1 attempt and `"t2"` has 2,
a success for `"t1"` removes `"t1"` and leaves `"t2"` at 2. -/
theorem tool_success_cleanup_frame_witness :
    (runAfterToolCall cfgToolTwo stMixed evToolOk1).1.tool_attempts =
      aerase stMixed.tool_attempts "t1" ∧
    alookup (runAfterToolCall cfgToolTwo stMixed evToolOk1).1.tool_attempts
      "t1" = none ∧
    alookup (runAfterToolCall cfgToolTwo stMixed evToolOk1).1.tool_attempts
      "t2" = some 2 := by
  have h := tool_success_cleanup_frame cfgToolTwo stMixed evToolOk1
    rfl (by decide) (by decide)
  refine ⟨h.1, h.2.1, ?_⟩
  rw [h.2.2.1 "t2" (by decide)]
  decide

/-- Claim C7: when a `should_retry` predicate is configured and rejects the
error derived from a failure event (`getToolErrorForPredicate`), the handler
leaves the retry flag false and changes nothing: the identifier's attempt
count is not incremented. -/
theorem tool_predicate_gate_blocks (cfg : StrategyConfig) (s : StrategyState)
    (e : AfterToolCallEvent) (p : PyException → Bool) (err : PyException)
    (h1 : e.retry = false)
    (h2 : cfg.tool_should_retry = some p)
    (h3 : getToolErrorForPredicate e = some err)
    (h4 : p err = false)
    (h5 : isToolErrorResult e = true) :
    runAfterToolCall cfg s e = (s, false) := by
  have hrej : predicateRejects cfg (getToolErrorForPredicate e) = true := by
    unfold predicateRejects
    rw [h2, h3]
    simp [h4]
  unfold runAfterToolCall handleAfterToolCall
  rw [h1]
  rcases Bool.eq_false_or_eq_true (isToolRetryEnabled cfg (toolName e)) with hE | hE <;>
    simp [hE, h5, hrej, runTrace]

/-- Witness for C7: with an always-false `should_retry` predicate, the error
event for `"t1"` (derived error: `RuntimeError("Error")`) leaves the state
untouched and the retry flag false. -/
theorem tool_predicate_gate_blocks_witness :
    runAfterToolCall cfgPredFalse initialState evToolErr1 =
      (initialState, false) :=
  tool_predicate_gate_blocks cfgPredFalse initialState evToolErr1
    (fun _ => false) (PyException.runtimeError "Error") rfl rfl (by decide)
    rfl (by decide)

/-- Claim C8: after an after-invocation event the strategy's mutable state is
fully reset regardless of its prior value: model counter 0, cached throttle
notification cleared, tool attempt map empty. -/
theorem after_invocation_resets_state (s : StrategyState)
    (e : AfterInvocationEvent) :
    (handleAfterInvocation s e).model_current_attempt = 0 ∧
    (handleAfterInvocation s e).backwards_compatible_event_to_yield = none ∧
    (handleAfterInvocation s e).tool_attempts = [] :=
  ⟨rfl, rfl, rfl⟩

/-- Is the constructor's result a successfully built strategy? -/
def exOk : Except String (StrategyConfig × StrategyState) → Bool
  | Except.ok _ => true
  | Except.error _ => false

/-- Claim C9: construction fails (with the configuration `ValueError`,
before any event is processed) exactly when both a tool allow-list and a
tool deny-list are supplied; with at most one of the two it succeeds. -/
theorem init_list_exclusivity (m1 : Int) (m2 m3 : ℚ) (t1 : Int) (t2 t3 : ℚ)
    (pr : Option (PyException → Bool))
    (tc : Option (List (String × ToolConfigOverride)))
    (en dis : Option (List String)) :
    exOk (init m1 m2 m3 t1 t2 t3 pr tc en dis) =
      !(en.isSome && dis.isSome) ∧
    (∀ l1 l2 : List String,
      init m1 m2 m3 t1 t2 t3 pr tc (some l1) (some l2) =
        Except.error
          "Cannot specify both tool_enabled_tools and tool_disabled_tools") := by
  constructor
  · unfold init
    rcases Bool.eq_false_or_eq_true (en.isSome && dis.isSome) with h | h <;>
      simp [h, exOk]
  · intro l1 l2
    rfl

/-- Claim C10: an after-tool-call event whose `tool_use` lacks `toolUseId`
is keyed under the empty string, so all identifier-less failures share one
attempt counter: two consecutive such failures (even of different tools)
drive the single `""` counter from `c` to `c+1` and then `c+2`. -/
theorem missing_id_shared_counter (cfg : StrategyConfig) (s : StrategyState)
    (e1 e2 : AfterToolCallEvent)
    (hid1 : e1.tool_use.toolUseId = none)
    (hid2 : e2.tool_use.toolUseId = none)
    (hr1 : e1.retry = false) (hr2 : e2.retry = false)
    (hen1 : isToolRetryEnabled cfg (toolName e1) = true)
    (hen2 : isToolRetryEnabled cfg (toolName e2) = true)
    (herr1 : isToolErrorResult e1 = true)
    (herr2 : isToolErrorResult e2 = true)
    (hp1 : predicateRejects cfg (getToolErrorForPredicate e1) = false)
    (hp2 : predicateRejects cfg (getToolErrorForPredicate e2) = false) :
    toolUseKey e1 = "" ∧ toolUseKey e2 = "" ∧
    alookup (runAfterToolCall cfg s e1).1.tool_attempts "" =
      some (mapGetD s.tool_attempts "" 0 + 1) ∧
    alookup (runAfterToolCall cfg (runAfterToolCall cfg s e1).1 e2).1.tool_attempts
      "" = some (mapGetD s.tool_attempts "" 0 + 2) := by
  have hk1 : toolUseKey e1 = "" := by
    unfold toolUseKey
    rw [hid1]
    rfl
  have hk2 : toolUseKey e2 = "" := by
    unfold toolUseKey
    rw [hid2]
    rfl
  have hA := toolFailureLookup cfg s e1 hr1 hen1 herr1 hp1
  rw [hk1] at hA
  have hB := toolFailureLookup cfg (runAfterToolCall cfg s e1).1 e2
    hr2 hen2 herr2 hp2
  rw [hk2] at hB
  have hmid : mapGetD (runAfterToolCall cfg s e1).1.tool_attempts "" 0 =
      mapGetD s.tool_attempts "" 0 + 1 := by
    unfold mapGetD
    rw [hA]
    rfl
  rw [hmid] at hB
  exact ⟨hk1, hk2, hA, hB⟩

/-- Witness for C10: two identifier-less failures, one of `"tool_a"` and one
of `"tool_b"`, share the `""` counter: it reads 1 after the first and 2
after the second, and (with `max_attempts=2`) the second event is denied a
retry even though it was the first failure of its own tool. -/
theorem missing_id_shared_counter_witness :
    toolUseKey evNoIdA = "" ∧ toolUseKey evNoIdB = "" ∧
    alookup (runAfterToolCall cfgToolTwo initialState evNoIdA).1.tool_attempts
      "" = some 1 ∧
    alookup (runAfterToolCall cfgToolTwo
      (runAfterToolCall cfgToolTwo initialState evNoIdA).1 evNoIdB).1.tool_attempts
      "" = some 2 ∧
    (runAfterToolCall cfgToolTwo
      (runAfterToolCall cfgToolTwo initialState evNoIdA).1 evNoIdB).2 = false := by
  have h := missing_id_shared_counter cfgToolTwo initialState evNoIdA evNoIdB
    rfl rfl rfl rfl (by decide) (by decide) (by decide) (by decide)
    (by decide) (by decide)
  exact ⟨h.1, h.2.1, h.2.2.1, h.2.2.2, by decide⟩

end RetryStrategy
